import Mathlib

/-!
Shallow embedding of `src/backend/server.py` (BrickBase backend):
the OTP verifier, organization/membership, subscription ledger and
pricing-resolution logic, together with theorems checking the
specification's claims about them.

Modelling conventions:
* MongoDB collections are Lean lists; `find_one` is `List.find?`,
  `count_documents` is `(List.filter _).length`, `insert_one` appends,
  `update_one`/`delete_one` act on the first matching element.
* Timestamps are integers (seconds); `timedelta(days=d)` is `d * daySeconds`.
* Monetary amounts and tariffs are rationals.
* `HTTPException(status_code, detail)` is an explicit error value;
  handlers return `Except HTTPError _`.
-/

/-- Error value mirroring `HTTPException(status_code=..., detail=...)`. -/
structure HTTPError where
  statusCode : Nat
  detail : String
deriving Repr, DecidableEq

/-- One second-granularity day, for `timedelta(days=...)`. -/
def daySeconds : Int := 86400

/-- A document of the `otp_verifications` collection. -/
structure OTPRecord where
  mobile : String
  countryCode : String
  otp : String
  expiresAt : Int
  verified : Bool
deriving Repr, DecidableEq

/-- A document of the `users` collection (fields the modelled code touches). -/
structure User where
  id : String
  mobile : String
  name : String
  firmName : String
  city : String
  email : String
  role : String
  isPro : Bool
  organizationId : Option String
  subscriptionStatus : Option String
deriving Repr, DecidableEq

/-- A document of the `organizations` collection. -/
structure Organization where
  id : String
  name : String
  ownerId : String
  inviteCode : String
  employeeSeats : Int
deriving Repr, DecidableEq

/-- A document of the `organization_members` collection. -/
structure OrgMember where
  id : String
  userId : String
  organizationId : String
  role : String
  joinedAt : Int
deriving Repr, DecidableEq

/-- A document of the `subscriptions` collection. -/
structure Subscription where
  id : String
  userId : String
  planType : String
  status : String
  employeeSeats : Int
  amount : ℚ
  startDate : Int
  endDate : Int
deriving Repr, DecidableEq

/-- A document of the `pricing` collection. -/
structure Pricing where
  city : String
  proOwnerMonthly : ℚ
  proOwnerAnnual : ℚ
  employeeTier1 : ℚ
  employeeTier2 : ℚ
  employeeTier3 : ℚ
deriving Repr, DecidableEq

/-- The database state: one list per MongoDB collection used here. -/
structure DB where
  users : List User
  otpVerifications : List OTPRecord
  organizations : List Organization
  organizationMembers : List OrgMember
  subscriptions : List Subscription
  pricing : List Pricing
deriving Repr, DecidableEq

/-- Mongo `update_one`: apply `f` to the first element satisfying `p`, keep the rest. -/
def updateFirst {α : Type} (p : α → Bool) (f : α → α) : List α → List α
  | [] => []
  | x :: xs => if p x then f x :: xs else x :: updateFirst p f xs

/-- Mongo `delete_one`: remove the first element satisfying `p`. -/
def deleteFirst {α : Type} (p : α → Bool) : List α → List α
  | [] => []
  | x :: xs => if p x then xs else x :: deleteFirst p xs

/-- The `SUPPORTED_CITIES` list from the source. -/
def SUPPORTED_CITIES : List String :=
  ["faridabad", "gurugram", "noida", "delhi", "mumbai",
   "pune", "bangalore", "hyderabad", "ahmedabad"]

/-- The hardcoded `DEFAULT_PRICING` dict, merged with a city name
(`{"city": city_lower, **DEFAULT_PRICING}`). -/
def defaultPricingRow (city : String) : Pricing :=
  { city := city
    proOwnerMonthly := 3599
    proOwnerAnnual := 35990
    employeeTier1 := 399
    employeeTier2 := 759
    employeeTier3 := 1299 }

/-- Python's `str.lower()`, character by character (structurally recursive,
unlike `String.toLower`, so that concrete states evaluate in the kernel). -/
def strToLower (s : String) : String := ⟨s.data.map Char.toLower⟩

/-- Embeds `get_pricing_for_city`: exact row, else (for unsupported cities) the
`other_cities` row, else hardcoded defaults. -/
def get_pricing_for_city (db : DB) (city : String) : Pricing :=
  let cityLower := strToLower city
  match db.pricing.find? (fun p => p.city == cityLower) with
  | some pricing => pricing
  | none =>
      if !(SUPPORTED_CITIES.contains cityLower) then
        match db.pricing.find? (fun p => p.city == "other_cities") with
        | some otherPricing => otherPricing
        | none => defaultPricingRow cityLower
      else
        defaultPricingRow cityLower

/-- Embeds `calculate_employee_pricing`: single tier applied to the whole seat count. -/
def calculate_employee_pricing (seats : Int)
    (baseTier1 baseTier2 baseTier3 : ℚ) : ℚ :=
  if seats ≤ 7 then seats * baseTier1
  else if seats ≤ 14 then seats * baseTier2
  else seats * baseTier3

/-- Result of `POST /auth/verify-otp`: `verified`, `is_new_user`, and the
existing user on the login branch. -/
structure VerifyResult where
  verified : Bool
  isNewUser : Bool
  user : Option User
deriving Repr, DecidableEq

/-- Embeds `verify_otp`: NotFound, Expired, Invalid (with `000000` bypass), else mark
the record verified and branch on user existence. -/
def verify_otp (db : DB) (mobile otp : String) (now : Int) :
    Except HTTPError (VerifyResult × DB) :=
  match db.otpVerifications.find? (fun r => r.mobile == mobile) with
  | none => .error ⟨400, "OTP not found. Please request a new one."⟩
  | some otpRecord =>
      if now > otpRecord.expiresAt then
        .error ⟨400, "OTP expired. Please request a new one."⟩
      else if otp != otpRecord.otp && otp != "000000" then
        .error ⟨400, "Invalid OTP"⟩
      else
        let db1 :=
          { db with
            otpVerifications :=
              updateFirst (fun r => r.mobile == mobile)
                (fun r => { r with verified := true }) db.otpVerifications }
        match db1.users.find? (fun u => u.mobile == mobile) with
        | some existingUser =>
            .ok ({ verified := true, isNewUser := false, user := some existingUser }, db1)
        | none =>
            .ok ({ verified := true, isNewUser := true, user := none }, db1)

/-- Request body of `POST /auth/signup`. -/
structure SignupData where
  mobile : String
  name : String
  firmName : String
  city : String
  email : String
  inviteCode : Option String
deriving Repr, DecidableEq

/-- Python truthiness of an optional string (`if data.invite_code:`):
`None` and `""` are falsy. -/
def truthyStr : Option String → Option String
  | none => none
  | some s => if s == "" then none else some s

/-- The `if data.invite_code:` block of `signup`: determine role,
`organization_id` and `organization_name`.  When the code matches no
organization the code falls through silently and the user stays an owner. -/
def signupInviteStep (db : DB) (inviteCode : Option String) :
    Except HTTPError (String × Option String × Option String) :=
  match truthyStr inviteCode with
  | none => .ok ("owner", none, none)
  | some code =>
      match db.organizations.find? (fun o => o.inviteCode == code) with
      | none => .ok ("owner", none, none)
      | some org =>
          let memberCount :=
            (db.organizationMembers.filter (fun m => m.organizationId == org.id)).length
          if (memberCount : Int) ≥ org.employeeSeats then
            .error ⟨400, "Organization has no available seats"⟩
          else
            .ok ("employee", some org.id, some org.name)

/-- Embeds `signup`: requires a verified OTP record (expiry NOT rechecked), rejects
duplicate mobile/email, optionally joins an organization via invite code,
inserts the user (and membership row), deletes the OTP record. -/
def signup (db : DB) (data : SignupData) (now : Int) (newUserId newMemberId : String) :
    Except HTTPError (User × DB) :=
  match db.otpVerifications.find? (fun r => r.mobile == data.mobile && r.verified) with
  | none => .error ⟨400, "Please verify your mobile number first"⟩
  | some _ =>
      if (db.users.find? (fun u => u.mobile == data.mobile)).isSome then
        .error ⟨400, "User already exists"⟩
      else if (db.users.find? (fun u => u.email == data.email)).isSome then
        .error ⟨400, "Email already registered"⟩
      else
        match signupInviteStep db data.inviteCode with
        | .error e => .error e
        | .ok (role, organizationId, organizationName) =>
            let userDict : User :=
              { id := newUserId, mobile := data.mobile, name := data.name
                firmName := if role == "owner" then data.firmName
                            else (organizationName.getD data.firmName)
                city := data.city, email := data.email, role := role
                isPro := false, organizationId := organizationId
                subscriptionStatus := none }
            let db1 := { db with users := db.users ++ [userDict] }
            let db2 :=
              match organizationId with
              | some orgId =>
                  { db1 with
                    organizationMembers :=
                      db1.organizationMembers ++
                        [({ id := newMemberId, userId := newUserId, organizationId := orgId,
                            role := "employee", joinedAt := now } : OrgMember)] }
              | none => db1
            let db3 :=
              { db2 with
                otpVerifications :=
                  deleteFirst (fun r => r.mobile == data.mobile) db2.otpVerifications }
            .ok (userDict, db3)

/-- Success payload of `GET /auth/check-invite/{code}`. -/
structure InviteInfo where
  valid : Bool
  organizationName : String
  ownerName : String
  availableSeats : Int
deriving Repr, DecidableEq

/-- Embeds `check_invite`: NotFound for an unknown code, Full when
`seats - member_count <= 0`, else organization info. -/
def check_invite (db : DB) (inviteCode : String) : Except HTTPError InviteInfo :=
  match db.organizations.find? (fun o => o.inviteCode == inviteCode) with
  | none => .error ⟨404, "Invalid invite code"⟩
  | some org =>
      let memberCount :=
        (db.organizationMembers.filter (fun m => m.organizationId == org.id)).length
      let availableSeats : Int := org.employeeSeats - memberCount
      if availableSeats ≤ 0 then
        .error ⟨400, "Organization has no available seats"⟩
      else
        let ownerName :=
          match db.users.find? (fun u => u.id == org.ownerId) with
          | some owner => owner.name
          | none => "Unknown"
        .ok { valid := true, organizationName := org.name, ownerName := ownerName,
              availableSeats := availableSeats }

/-- Embeds `create_organization`: pro owners only, one organization per owner;
inserts the organization, stamps the owner's `organization_id`, and enrolls
the owner as a member with role `owner`. -/
def create_organization (db : DB) (currentUser : User) (name : String)
    (employeeSeats : Int) (newOrgId inviteCode newMemberId : String) (now : Int) :
    Except HTTPError (Organization × DB) :=
  if !currentUser.isPro then
    .error ⟨403, "Only Pro owners can create organizations"⟩
  else if currentUser.role != "owner" then
    .error ⟨403, "Only owners can create organizations"⟩
  else if (db.organizations.find? (fun o => o.ownerId == currentUser.id)).isSome then
    .error ⟨400, "You already have an organization"⟩
  else
    let orgDict : Organization :=
      { id := newOrgId, name := name, ownerId := currentUser.id,
        inviteCode := inviteCode, employeeSeats := employeeSeats }
    let db1 := { db with organizations := db.organizations ++ [orgDict] }
    let db2 :=
      { db1 with
        users :=
          updateFirst (fun u => u.id == currentUser.id)
            (fun u => { u with organizationId := some newOrgId }) db1.users }
    let db3 :=
      { db2 with
        organizationMembers :=
          db2.organizationMembers ++
            [{ id := newMemberId, userId := currentUser.id, organizationId := newOrgId,
               role := "owner", joinedAt := now }] }
    .ok (orgDict, db3)

/-- Embeds `update_employee_seats`: owners only; BadRequest when the new count is
below the employee-role membership count; else overwrite the capacity. -/
def update_employee_seats (db : DB) (currentUser : User) (seats : Int) :
    Except HTTPError DB :=
  if currentUser.role != "owner" then
    .error ⟨403, "Only owners can update seats"⟩
  else
    match db.organizations.find? (fun o => o.ownerId == currentUser.id) with
    | none => .error ⟨404, "Organization not found"⟩
    | some org =>
        let memberCount := (db.organizationMembers.filter
            (fun m => m.organizationId == org.id && m.role == "employee")).length
        if seats < (memberCount : Int) then
          .error ⟨400, "Cannot reduce seats below current employee count (" ++
            toString memberCount ++ ")"⟩
        else
          .ok { db with
                organizations :=
                  updateFirst (fun o => o.id == org.id)
                    (fun o => { o with employeeSeats := seats }) db.organizations }

/-- Embeds `create_subscription` (`POST /subscription/create`): owners only; price =
base tariff for the plan (+ tiered employee add-on when `employee_seats > 0`);
inserts a new "active" ledger row, flips the user to pro, and (only when
`employee_seats > 0`) overwrites the owner's organization seat capacity. -/
def create_subscription (db : DB) (currentUser : User) (planType : String)
    (employeeSeats : Int) (now : Int) (subscriptionId : String) :
    Except HTTPError (Subscription × DB) :=
  if currentUser.role != "owner" then
    .error ⟨403, "Only owners can subscribe"⟩
  else
    let pricing := get_pricing_for_city db currentUser.city
    match (if planType == "pro_owner_monthly" then some (pricing.proOwnerMonthly, (30 : Int))
           else if planType == "pro_owner_annual" then some (pricing.proOwnerAnnual, 365)
           else none) with
    | none => .error ⟨400, "Invalid plan type"⟩
    | some (baseAmount, durationDays) =>
        let amount :=
          if employeeSeats > 0 then
            baseAmount + calculate_employee_pricing employeeSeats
              pricing.employeeTier1 pricing.employeeTier2 pricing.employeeTier3
          else baseAmount
        let endDate := now + durationDays * daySeconds
        let subscriptionDict : Subscription :=
          { id := subscriptionId, userId := currentUser.id, planType := planType,
            status := "active", employeeSeats := employeeSeats, amount := amount,
            startDate := now, endDate := endDate }
        let db1 := { db with subscriptions := db.subscriptions ++ [subscriptionDict] }
        let db2 :=
          { db1 with
            users :=
              updateFirst (fun u => u.id == currentUser.id)
                (fun u => { u with isPro := true, subscriptionStatus := some "active" })
                db1.users }
        let db3 :=
          match db2.organizations.find? (fun o => o.ownerId == currentUser.id) with
          | some org =>
              if employeeSeats > 0 then
                { db2 with
                  organizations :=
                    updateFirst (fun o => o.id == org.id)
                      (fun o => { o with employeeSeats := employeeSeats })
                      db2.organizations }
              else db2
          | none => db2
        .ok (subscriptionDict, db3)

/-- Response of `GET /subscription`: the code answers `{"subscription": None}`,
`{"subscription": None, "expired": True}`, or the record. -/
structure SubscriptionView where
  subscription : Option Subscription
  expired : Bool
deriving Repr, DecidableEq

/-- Embeds `get_subscription` (`GET /subscription`): fetch the first
active-or-pending record; lazily expire it (and demote the user) when
`end_date` has passed; else return it unmodified. -/
def get_subscription (db : DB) (currentUser : User) (now : Int) :
    SubscriptionView × DB :=
  match db.subscriptions.find? (fun s => s.userId == currentUser.id &&
      (s.status == "active" || s.status == "pending_payment")) with
  | none => ({ subscription := none, expired := false }, db)
  | some subscription =>
      if now > subscription.endDate then
        let db1 :=
          { db with
            subscriptions :=
              updateFirst (fun s => s.id == subscription.id)
                (fun s => { s with status := "expired" }) db.subscriptions }
        let db2 :=
          { db1 with
            users :=
              updateFirst (fun u => u.id == currentUser.id)
                (fun u => { u with isPro := false, subscriptionStatus := some "expired" })
                db1.users }
        ({ subscription := none, expired := true }, db2)
      else
        ({ subscription := some subscription, expired := false }, db)

/-- Embeds `admin_update_subscription` (`PUT /admin/users/{id}/subscription`):
when enabling, extend the first active record (lookup-then-update) or insert a
zero-amount "admin_granted" record, and overwrite organization seats when
given; always rewrite the user's `is_pro`/`subscription_status` flags.
(`duration_months * 30 if duration_months else 30` and `employee_seats or 0`
treat `None` and `0` alike; the pricing fetch on the insert branch is a pure
read with no effect and is omitted.) -/
def admin_update_subscription (db : DB) (userId : String) (isPro : Bool)
    (durationMonths : Option Int) (employeeSeats : Option Int)
    (now : Int) (newSubscriptionId : String) : Except HTTPError DB :=
  match db.users.find? (fun u => u.id == userId) with
  | none => .error ⟨404, "User not found"⟩
  | some _ =>
      let db2 :=
        if isPro then
          let endDate :=
            match durationMonths with
            | some m => if m != 0 then now + m * 30 * daySeconds else now + 30 * daySeconds
            | none => now + 30 * daySeconds
          let db1 :=
            match db.subscriptions.find? (fun s => s.userId == userId &&
                s.status == "active") with
            | some subscription =>
                { db with
                  subscriptions :=
                    updateFirst (fun s => s.id == subscription.id)
                      (fun s =>
                        let s1 := { s with status := "active", endDate := endDate }
                        match employeeSeats with
                        | some es => { s1 with employeeSeats := es }
                        | none => s1)
                      db.subscriptions }
            | none =>
                { db with
                  subscriptions :=
                    db.subscriptions ++
                      [({ id := newSubscriptionId, userId := userId,
                          planType := "admin_granted", status := "active",
                          employeeSeats := (employeeSeats.getD 0), amount := 0,
                          startDate := now, endDate := endDate } : Subscription)] }
          match employeeSeats with
          | some es =>
              match db1.organizations.find? (fun o => o.ownerId == userId) with
              | some org =>
                  { db1 with
                    organizations :=
                      updateFirst (fun o => o.id == org.id)
                        (fun o => { o with employeeSeats := es }) db1.organizations }
              | none => db1
          | none => db1
        else db
      .ok { db2 with
            users :=
              updateFirst (fun u => u.id == userId)
                (fun u =>
                  { u with
                    isPro := isPro
                    subscriptionStatus := if isPro then some "active" else none })
                db2.users }

/-- Helper `countActiveSubs db uid`: number of subscription documents of `uid` with
status "active" (the quantity the at-most-one-active invariant bounds). -/
def countActiveSubs (db : DB) (userId : String) : Nat :=
  (db.subscriptions.filter (fun s => s.userId == userId && s.status == "active")).length

/-- The first element satisfying the filter's singleton result is found. -/
theorem find?_filter_singleton {α : Type} (q : α → Bool) (s : α) :
    ∀ l : List α, l.filter q = [s] → l.find? q = some s := by
  intro l
  induction l with
  | nil => intro h; simp at h
  | cons x xs ih =>
      intro h
      by_cases hq : q x
      · rw [List.filter_cons_of_pos hq] at h
        rw [List.find?_cons_of_pos xs hq]
        exact congrArg some (List.head_eq_of_cons_eq h)
      · rw [List.filter_cons_of_neg hq] at h
        rw [List.find?_cons_of_neg xs hq]
        exact ih h

/-- Updating the found element in place keeps it first, provided the update
preserves the selection predicate. -/
theorem find?_updateFirst_self {α : Type} (p : α → Bool) (f : α → α) (a : α) :
    ∀ l : List α, l.find? p = some a → p (f a) = true →
      (updateFirst p f l).find? p = some (f a) := by
  intro l
  induction l with
  | nil => intro h; simp at h
  | cons x xs ih =>
      intro h hf
      by_cases hp : p x
      · rw [List.find?_cons_of_pos xs hp] at h
        injection h with h
        subst h
        rw [updateFirst, if_pos hp, List.find?_cons_of_pos xs hf]
      · rw [List.find?_cons_of_neg xs hp] at h
        rw [updateFirst, if_neg hp, List.find?_cons_of_neg (updateFirst p f xs) hp]
        exact ih h hf

/-- If the `q`-filter of `l` is exactly `[s]`, the `p`-selected element is `s`
(by uniqueness of `p`-elements), and the update destroys `q`, then no
`q`-element survives the update. -/
theorem filter_updateFirst_singleton_nil {α : Type} (p q : α → Bool) (f : α → α) (s : α)
    (hq : ∀ y, q (f y) = false) (hps : p s = true) :
    ∀ l : List α, l.filter q = [s] →
      (∀ x ∈ l, ∀ y ∈ l, p x = true → p y = true → x = y) →
      (updateFirst p f l).filter q = [] := by
  intro l
  induction l with
  | nil => intro h; simp at h
  | cons x xs ih =>
      intro hfil hup
      by_cases hp : p x
      · rw [updateFirst, if_pos hp,
          List.filter_cons_of_neg (by rw [hq x]; exact Bool.false_ne_true)]
        by_cases hqx : q x
        · rw [List.filter_cons_of_pos hqx] at hfil
          exact List.tail_eq_of_cons_eq hfil
        · rw [List.filter_cons_of_neg hqx] at hfil
          have hs_fil : s ∈ xs.filter q := by
            rw [hfil]; exact List.mem_singleton_self s
          have hqs : q s = true := List.of_mem_filter hs_fil
          have hxs : x = s :=
            hup x (List.mem_cons_self x xs) s
              (List.mem_cons_of_mem x (List.mem_of_mem_filter hs_fil)) hp hps
          rw [hxs] at hqx
          exact absurd hqs hqx
      · rw [updateFirst, if_neg hp]
        by_cases hqx : q x
        · rw [List.filter_cons_of_pos hqx] at hfil
          have hx : x = s := List.head_eq_of_cons_eq hfil
          rw [hx] at hp
          exact absurd hps hp
        · rw [List.filter_cons_of_neg hqx] at hfil
          rw [List.filter_cons_of_neg hqx]
          exact ih hfil (fun a ha b hb => hup a (List.mem_cons_of_mem x ha)
            b (List.mem_cons_of_mem x hb))

/-- A `p`-element that is unique among `p`-elements is what `find?` returns. -/
theorem find?_eq_some_of_unique {α : Type} (p : α → Bool) (s : α) (hps : p s = true) :
    ∀ l : List α, s ∈ l →
      (∀ x ∈ l, ∀ y ∈ l, p x = true → p y = true → x = y) →
      l.find? p = some s := by
  intro l
  induction l with
  | nil => intro h; simp at h
  | cons x xs ih =>
      intro hs hup
      by_cases hp : p x
      · rw [List.find?_cons_of_pos xs hp]
        rcases List.mem_cons.mp hs with h | h
        · rw [h]
        · exact congrArg some (hup x (List.mem_cons_self x xs) s
            (List.mem_cons_of_mem x h) hp hps)
      · rw [List.find?_cons_of_neg xs hp]
        rcases List.mem_cons.mp hs with h | h
        · rw [h] at hps
          exact absurd hps hp
        · exact ih h (fun a ha b hb => hup a (List.mem_cons_of_mem x ha)
            b (List.mem_cons_of_mem x hb))

/-- The update keeps the `q`-count when it preserves `q` on the found element. -/
theorem length_filter_updateFirst_eq {α : Type} (p q : α → Bool) (f : α → α) :
    ∀ l : List α, (∀ x, l.find? p = some x → q (f x) = q x) →
      ((updateFirst p f l).filter q).length = (l.filter q).length := by
  intro l
  induction l with
  | nil => intro _; rfl
  | cons x xs ih =>
      intro h
      by_cases hp : p x
      · rw [updateFirst, if_pos hp]
        have hqx : q (f x) = q x := h x (List.find?_cons_of_pos xs hp)
        by_cases hq : q x
        · rw [List.filter_cons_of_pos hq, List.filter_cons_of_pos (hqx.trans hq),
            List.length_cons, List.length_cons]
        · rw [List.filter_cons_of_neg hq,
            List.filter_cons_of_neg (by rw [hqx]; exact hq)]
      · rw [updateFirst, if_neg hp]
        have h' : ∀ y, xs.find? p = some y → q (f y) = q y := by
          intro y hy
          exact h y (by rw [List.find?_cons_of_neg xs hp]; exact hy)
        by_cases hq : q x
        · rw [List.filter_cons_of_pos hq, List.filter_cons_of_pos hq,
            List.length_cons, List.length_cons, ih h']
        · rw [List.filter_cons_of_neg hq, List.filter_cons_of_neg hq, ih h']

/-- A member satisfying `p` but not `q` makes the `q`-count strictly smaller
than the `p`-count, when `q` implies `p`. -/
theorem length_filter_lt_of_mem {α : Type} (p q : α → Bool)
    (himp : ∀ x, q x = true → p x = true) (a : α) (hpa : p a = true) (hqa : q a = false) :
    ∀ l : List α, a ∈ l → (l.filter q).length < (l.filter p).length := by
  intro l
  induction l with
  | nil => intro h; simp at h
  | cons x xs ih =>
      intro ha
      have hmono : (xs.filter q).length ≤ (xs.filter p).length := by
        rw [← List.countP_eq_length_filter, ← List.countP_eq_length_filter]
        exact List.countP_mono_left (fun b _ hb => himp b hb)
      rcases List.mem_cons.mp ha with h | h
      · rw [h] at hpa hqa
        rw [List.filter_cons_of_neg (by rw [hqa]; exact Bool.false_ne_true),
          List.filter_cons_of_pos hpa, List.length_cons]
        exact Nat.lt_succ_of_le hmono
      · have hlt := ih h
        by_cases hqx : q x
        · rw [List.filter_cons_of_pos hqx, List.filter_cons_of_pos (himp x hqx),
            List.length_cons, List.length_cons]
          exact Nat.succ_lt_succ hlt
        · rw [List.filter_cons_of_neg hqx]
          by_cases hpx : p x
          · rw [List.filter_cons_of_pos hpx, List.length_cons]
            exact Nat.lt_succ_of_lt hlt
          · rw [List.filter_cons_of_neg hpx]
            exact hlt

/-! ### Claim theorems -/

/-- C6: pricing resolution lowercases the city and returns the exact
matching row when one exists; when no exact row exists and the city is not in
the supported list it returns the "other_cities" row when that row exists;
otherwise it returns the hardcoded defaults merged with the requested
(lowercased) city name. -/
theorem C6_pricing_resolution (db : DB) (city : String) :
    (∀ p, db.pricing.find? (fun r => r.city == strToLower city) = some p →
        get_pricing_for_city db city = p) ∧
    (db.pricing.find? (fun r => r.city == strToLower city) = none →
      (SUPPORTED_CITIES.contains (strToLower city) = false →
        (∀ q, db.pricing.find? (fun r => r.city == "other_cities") = some q →
            get_pricing_for_city db city = q) ∧
        (db.pricing.find? (fun r => r.city == "other_cities") = none →
            get_pricing_for_city db city = defaultPricingRow (strToLower city))) ∧
      (SUPPORTED_CITIES.contains (strToLower city) = true →
          get_pricing_for_city db city = defaultPricingRow (strToLower city))) := by
  unfold get_pricing_for_city
  refine ⟨?_, ?_⟩
  · intro p hp
    simp only [hp]
  · intro hnone
    refine ⟨?_, ?_⟩
    · intro hsup
      refine ⟨?_, ?_⟩
      · intro q hq
        simp only [hnone, hsup, hq, Bool.not_false, if_true]
      · intro hq
        simp only [hnone, hsup, hq, Bool.not_false, if_true]
    · intro hsup
      simp only [hnone, hsup, Bool.not_true, Bool.false_eq_true, if_false]

/-- An owner user used by concrete witness states. -/
def uOwnerW : User :=
  { id := "u1", mobile := "9999999999", name := "Asha", firmName := "Asha Estates",
    city := "noida", email := "asha@example.com", role := "owner", isPro := false,
    organizationId := none, subscriptionStatus := none }

/-- The empty database. -/
def emptyDB : DB :=
  { users := [], otpVerifications := [], organizations := [],
    organizationMembers := [], subscriptions := [], pricing := [] }

/-- A pricing row for "noida" used by concrete witness states. -/
def noidaRow : Pricing :=
  { city := "noida", proOwnerMonthly := 2999, proOwnerAnnual := 29990,
    employeeTier1 := 299, employeeTier2 := 599, employeeTier3 := 999 }

/-- A pricing row for "other_cities" used by concrete witness states. -/
def otherCitiesRow : Pricing :=
  { city := "other_cities", proOwnerMonthly := 1999, proOwnerAnnual := 19990,
    employeeTier1 := 199, employeeTier2 := 399, employeeTier3 := 699 }

/-- Database with two pricing rows. -/
def dbPricingW : DB := { emptyDB with pricing := [noidaRow, otherCitiesRow] }

/-- Witness for C6: exact hit (case-insensitive), other-cities fallback, and
hardcoded-defaults fallback, each at a concrete input. -/
theorem C6_pricing_resolution_witness :
    get_pricing_for_city dbPricingW "NOIDA" = noidaRow ∧
    get_pricing_for_city dbPricingW "Paris" = otherCitiesRow ∧
    get_pricing_for_city emptyDB "delhi" = defaultPricingRow "delhi" := by
  refine ⟨?_, ?_, ?_⟩
  · exact (C6_pricing_resolution dbPricingW "NOIDA").1 noidaRow (by rfl)
  · exact (((C6_pricing_resolution dbPricingW "Paris").2 (by rfl)).1 (by rfl)).1
      otherCitiesRow (by rfl)
  · exact ((C6_pricing_resolution emptyDB "delhi").2 (by rfl)).2 (by rfl)

/-- C5: every successful purchase charges the base tariff of the plan
(monthly: 30-day term at the monthly rate; annual: 365-day term at the annual
rate) plus the employee add-on computed by a single tier applied to the whole
seat count (≤7 → tier1, ≤14 → tier2, else tier3, no blending). -/
theorem C5_purchase_amount (db : DB) (u : User) (seats now : Int) (sid : String)
    (sub : Subscription) (db' : DB) (hseats : 0 ≤ seats) :
    (create_subscription db u "pro_owner_monthly" seats now sid = .ok (sub, db') →
        sub.amount = (get_pricing_for_city db u.city).proOwnerMonthly +
          calculate_employee_pricing seats
            (get_pricing_for_city db u.city).employeeTier1
            (get_pricing_for_city db u.city).employeeTier2
            (get_pricing_for_city db u.city).employeeTier3 ∧
        sub.startDate = now ∧ sub.endDate = now + 30 * daySeconds) ∧
    (create_subscription db u "pro_owner_annual" seats now sid = .ok (sub, db') →
        sub.amount = (get_pricing_for_city db u.city).proOwnerAnnual +
          calculate_employee_pricing seats
            (get_pricing_for_city db u.city).employeeTier1
            (get_pricing_for_city db u.city).employeeTier2
            (get_pricing_for_city db u.city).employeeTier3 ∧
        sub.startDate = now ∧ sub.endDate = now + 365 * daySeconds) := by
  have hcalc : ¬ (0 : Int) < seats →
      calculate_employee_pricing seats
        (get_pricing_for_city db u.city).employeeTier1
        (get_pricing_for_city db u.city).employeeTier2
        (get_pricing_for_city db u.city).employeeTier3 = 0 := by
    intro hn
    have h0 : seats = 0 := by omega
    subst h0
    simp [calculate_employee_pricing]
  constructor
  all_goals
    intro h
    rw [create_subscription] at h
    by_cases hrole : (u.role != "owner") = true
    · rw [if_pos hrole] at h
      exact absurd h (by simp)
    · rw [if_neg hrole] at h
      simp only [beq_self_eq_true, if_pos, String.reduceBEq, Bool.false_eq_true,
        if_false, ite_true, ite_false] at h
      rw [Except.ok.injEq, Prod.mk.injEq] at h
      obtain ⟨hsub, -⟩ := h
      subst hsub
      refine ⟨?_, rfl, rfl⟩
      by_cases hpos : (0 : Int) < seats
      · simp only [hpos, if_pos]
      · simp only [if_neg (by omega : ¬ seats > 0), hcalc hpos, add_zero]

/-- Database holding just the witness owner. -/
def dbOneUserW : DB := { emptyDB with users := [uOwnerW] }

/-- A dummy subscription for impossible error branches of witness fixtures. -/
def dummySub : Subscription :=
  { id := "", userId := "", planType := "", status := "", employeeSeats := 0,
    amount := 0, startDate := 0, endDate := 0 }

/-- Result of the concrete C5 purchase (8 seats, monthly, t = 0). -/
def C5resW : Subscription × DB :=
  match create_subscription dbOneUserW uOwnerW "pro_owner_monthly" 8 0 "sub-1" with
  | .ok r => r
  | .error _ => (dummySub, emptyDB)

/-- Witness for C5 at a concrete purchase (seats = 8, i.e. tier 2). -/
theorem C5_purchase_amount_witness :
    (0 : Int) ≤ 8 ∧
    (C5resW.1.amount = (get_pricing_for_city dbOneUserW uOwnerW.city).proOwnerMonthly +
        calculate_employee_pricing 8
          (get_pricing_for_city dbOneUserW uOwnerW.city).employeeTier1
          (get_pricing_for_city dbOneUserW uOwnerW.city).employeeTier2
          (get_pricing_for_city dbOneUserW uOwnerW.city).employeeTier3 ∧
      C5resW.1.startDate = 0 ∧ C5resW.1.endDate = 0 + 30 * daySeconds) := by
  refine ⟨by decide, ?_⟩
  exact (C5_purchase_amount dbOneUserW uOwnerW 8 0 "sub-1" C5resW.1 C5resW.2
    (by decide)).1 (by rfl)

/-- C7: OTP verification fails NotFound without a record, Expired past the
stored expiry, Invalid when the code matches neither the stored code nor the
universal bypass "000000"; otherwise it marks the record verified and reports
whether a user already exists; the bypass succeeds regardless of the stored
code on any unexpired record. -/
theorem C7_verify_otp_branches (db : DB) (mobile otp : String) (now : Int) :
    (db.otpVerifications.find? (fun r => r.mobile == mobile) = none →
        verify_otp db mobile otp now =
          .error ⟨400, "OTP not found. Please request a new one."⟩) ∧
    (∀ r, db.otpVerifications.find? (fun x => x.mobile == mobile) = some r →
      (now > r.expiresAt →
          verify_otp db mobile otp now =
            .error ⟨400, "OTP expired. Please request a new one."⟩) ∧
      (¬ now > r.expiresAt → otp ≠ r.otp → otp ≠ "000000" →
          verify_otp db mobile otp now = .error ⟨400, "Invalid OTP"⟩) ∧
      (¬ now > r.expiresAt → (otp = r.otp ∨ otp = "000000") →
          verify_otp db mobile otp now =
            .ok ({ verified := true,
                   isNewUser := (db.users.find? (fun u => u.mobile == mobile)).isNone,
                   user := db.users.find? (fun u => u.mobile == mobile) },
                 { db with
                   otpVerifications :=
                     updateFirst (fun x => x.mobile == mobile)
                       (fun x => { x with verified := true }) db.otpVerifications }) ∧
          (updateFirst (fun x => x.mobile == mobile)
              (fun x => { x with verified := true })
              db.otpVerifications).find? (fun x => x.mobile == mobile) =
            some { r with verified := true })) := by
  constructor
  · intro h
    simp only [verify_otp, h]
  · intro r hr
    refine ⟨?_, ?_, ?_⟩
    · intro hexp
      simp only [verify_otp, hr, if_pos hexp]
    · intro hexp h1 h2
      simp only [verify_otp, hr, if_neg hexp]
      rw [if_pos (by simp [h1, h2])]
    · intro hexp hor
      have hcond : (otp != r.otp && otp != "000000") = false := by
        rcases hor with h | h <;> simp [h]
      constructor
      · simp only [verify_otp, hr, if_neg hexp]
        rw [if_neg (by simp [hcond])]
        cases hfind : db.users.find? (fun u => u.mobile == mobile) with
        | some u => simp [hfind]
        | none => simp [hfind]
      · exact find?_updateFirst_self (fun x => x.mobile == mobile)
          (fun x => { x with verified := true }) r db.otpVerifications hr
          (by
            have h0 := @List.find?_some OTPRecord (fun x => x.mobile == mobile)
              r db.otpVerifications hr
            simpa using h0)

/-- A live OTP record (stored code "123456", expires at t = 100). -/
def otpRecW : OTPRecord :=
  { mobile := "9999999999", countryCode := "+91", otp := "123456",
    expiresAt := 100, verified := false }

/-- Database with the OTP record and the matching existing user. -/
def dbOtpW : DB := { emptyDB with users := [uOwnerW], otpVerifications := [otpRecW] }

/-- Witness for C7: at t = 50 the bypass code "000000" verifies the record
whose stored code is "123456", and reports the existing user. -/
theorem C7_verify_otp_branches_witness :
    ¬ (50 : Int) > otpRecW.expiresAt ∧
    verify_otp dbOtpW "9999999999" "000000" 50 =
      .ok ({ verified := true, isNewUser := false, user := some uOwnerW },
           { dbOtpW with
             otpVerifications := [{ otpRecW with verified := true }] }) := by
  have h := (C7_verify_otp_branches dbOtpW "9999999999" "000000" 50).2 otpRecW
    (by rfl)
  have h3 := h.2.2 (by decide) (Or.inr rfl)
  exact ⟨by decide, by rw [h3.1]; rfl⟩

/-- C8: for an owner with an organization, `update_employee_seats` fails
with BadRequest exactly when the requested count is below the employee-role
membership count (owner's row not counted), and otherwise overwrites the
capacity. -/
theorem C8_update_seats_boundary (db : DB) (u : User) (seats : Int)
    (org : Organization) (hrole : u.role = "owner")
    (horg : db.organizations.find? (fun o => o.ownerId == u.id) = some org) :
    (seats < ((db.organizationMembers.filter
        (fun m => m.organizationId == org.id && m.role == "employee")).length : Int) →
        update_employee_seats db u seats =
          .error ⟨400, "Cannot reduce seats below current employee count (" ++
            toString (db.organizationMembers.filter
              (fun m => m.organizationId == org.id && m.role == "employee")).length
            ++ ")"⟩) ∧
    (((db.organizationMembers.filter
        (fun m => m.organizationId == org.id && m.role == "employee")).length : Int)
        ≤ seats →
        update_employee_seats db u seats =
          .ok { db with
                organizations :=
                  updateFirst (fun o => o.id == org.id)
                    (fun o => { o with employeeSeats := seats })
                    db.organizations }) := by
  have hroleb : (u.role != "owner") = false := by simp [hrole]
  constructor
  · intro hlt
    simp only [update_employee_seats, hroleb, Bool.false_eq_true, if_false, horg]
    rw [if_pos hlt]
  · intro hge
    simp only [update_employee_seats, hroleb, Bool.false_eq_true, if_false, horg]
    rw [if_neg (by omega)]

/-- The witness owner's organization (5 seats). -/
def orgW : Organization :=
  { id := "org1", name := "Asha Estates", ownerId := "u1",
    inviteCode := "ABCD1234", employeeSeats := 5 }

/-- Owner membership row of the witness organization. -/
def memOwnerW : OrgMember :=
  { id := "m1", userId := "u1", organizationId := "org1", role := "owner", joinedAt := 0 }

/-- Employee membership row of the witness organization. -/
def memEmpW : OrgMember :=
  { id := "m2", userId := "u2", organizationId := "org1", role := "employee", joinedAt := 1 }

/-- Witness database: the owner, their organization, and two membership rows
(one owner, one employee). -/
def dbOrgW : DB :=
  { emptyDB with
    users := [uOwnerW]
    organizations := [orgW]
    organizationMembers := [memOwnerW, memEmpW] }

/-- Witness for C8: with one employee, requesting 0 seats is rejected and
requesting 3 seats overwrites the capacity. -/
theorem C8_update_seats_boundary_witness :
    uOwnerW.role = "owner" ∧
    update_employee_seats dbOrgW uOwnerW 0 =
      .error ⟨400, "Cannot reduce seats below current employee count ("
        ++ toString (1 : Nat) ++ ")"⟩ ∧
    update_employee_seats dbOrgW uOwnerW 3 =
      .ok { dbOrgW with organizations := [{ orgW with employeeSeats := 3 }] } := by
  refine ⟨rfl, ?_, ?_⟩
  · have h := (C8_update_seats_boundary dbOrgW uOwnerW 0 orgW rfl rfl).1 (by decide)
    rw [h]
    rfl
  · have h := (C8_update_seats_boundary dbOrgW uOwnerW 3 orgW rfl rfl).2 (by decide)
    rw [h]
    rfl

/-- An OTP record that was verified but whose expiry (t = 100) has passed. -/
def otpExpiredVerified : OTPRecord :=
  { mobile := "9999999999", countryCode := "+91", otp := "123456",
    expiresAt := 100, verified := true }

/-- Database holding only the expired-but-verified record. -/
def dbC1 : DB := { emptyDB with otpVerifications := [otpExpiredVerified] }

/-- Signup request matching that record. -/
def dataC1 : SignupData :=
  { mobile := "9999999999", name := "Asha", firmName := "Asha Estates",
    city := "noida", email := "asha@example.com", inviteCode := none }

/-- C1 (evaluating the code at the failing input): at time 200, past the
record's expiry 100, signup still succeeds and creates an owner user — the
handler re-checks only `verified`, never the expiry, so an
expired-but-verified record does authorize signup. -/
theorem C1_expired_verified_record_authorizes_signup :
    (200 : Int) > otpExpiredVerified.expiresAt ∧
    otpExpiredVerified.verified = true ∧
    (signup dbC1 dataC1 200 "u-new" "m-new").toOption.map
      (fun x => (x.1.role, x.2.users.length)) = some ("owner", 1) := by
  decide

/-- A verified OTP record for the C3 counterexample signup. -/
def otpC3 : OTPRecord :=
  { mobile := "8888888888", countryCode := "+91", otp := "123456",
    expiresAt := 100, verified := true }

/-- Database with the verified record and no organizations at all. -/
def dbC3 : DB := { emptyDB with otpVerifications := [otpC3] }

/-- Signup request carrying an invite code that matches no organization. -/
def dataC3 : SignupData :=
  { mobile := "8888888888", name := "Banu", firmName := "Banu Realty",
    city := "pune", email := "banu@example.com", inviteCode := some "NOCODE" }

/-- C3 counterexample: `check_invite` rejects the unknown code with
NotFound, but signup with the same code does not fail — it silently creates
an owner account, so signup does NOT re-validate the invite exactly as
`check_invite` does. -/
theorem C3_unknown_invite_not_rejected :
    check_invite dbC3 "NOCODE" = .error ⟨404, "Invalid invite code"⟩ ∧
    (signup dbC3 dataC3 0 "u-b" "m-b").toOption.map
      (fun x => (x.1.role, x.1.organizationId)) = some ("owner", none) := by
  exact ⟨rfl, by rfl⟩

/-- C3 amended: signup with an invite code matching no organization
ignores the code and creates an owner; when an organization matches, signup
applies the same seat check as `check_invite` (failing with the identical
no-available-seats error exactly when seats − member count ≤ 0) and on
success inserts an employee membership row and sets `organization_id`. -/
theorem C3_join_seat_revalidation (db : DB) (data : SignupData) (now : Int)
    (uid mid code : String) (r : OTPRecord)
    (hotp : db.otpVerifications.find?
      (fun x => x.mobile == data.mobile && x.verified) = some r)
    (hmob : db.users.find? (fun x => x.mobile == data.mobile) = none)
    (hemail : db.users.find? (fun x => x.email == data.email) = none)
    (hcode : data.inviteCode = some code) (hne : code ≠ "") :
    (db.organizations.find? (fun o => o.inviteCode == code) = none →
        (signup db data now uid mid).toOption.map
            (fun x => (x.1.role, x.1.organizationId)) = some ("owner", none) ∧
        (signup db data now uid mid).toOption.map
            (fun x => x.2.organizationMembers) = some db.organizationMembers) ∧
    (∀ org, db.organizations.find? (fun o => o.inviteCode == code) = some org →
      (((db.organizationMembers.filter
            (fun m => m.organizationId == org.id)).length : Int) ≥ org.employeeSeats →
          signup db data now uid mid =
            .error ⟨400, "Organization has no available seats"⟩ ∧
          check_invite db code =
            .error ⟨400, "Organization has no available seats"⟩) ∧
      (((db.organizationMembers.filter
            (fun m => m.organizationId == org.id)).length : Int) < org.employeeSeats →
          (signup db data now uid mid).toOption.map
              (fun x => (x.1.role, x.1.organizationId)) =
            some ("employee", some org.id) ∧
          (signup db data now uid mid).toOption.map
              (fun x => x.2.organizationMembers) =
            some (db.organizationMembers ++
              [{ id := mid, userId := uid, organizationId := org.id,
                 role := "employee", joinedAt := now }]))) := by
  have htr : truthyStr data.inviteCode = some code := by
    rw [hcode]
    simp [truthyStr, hne]
  refine ⟨?_, ?_⟩
  · intro hnone
    have hstep : signupInviteStep db data.inviteCode = .ok ("owner", none, none) := by
      simp only [signupInviteStep, htr, hnone]
    constructor
    · simp only [signup, hotp, hmob, hemail, hstep, Option.isSome_none,
        Bool.false_eq_true, if_false]
      rfl
    · simp only [signup, hotp, hmob, hemail, hstep, Option.isSome_none,
        Bool.false_eq_true, if_false]
      rfl
  · intro org horg
    constructor
    · intro hge
      have hstep : signupInviteStep db data.inviteCode =
          .error ⟨400, "Organization has no available seats"⟩ := by
        simp only [signupInviteStep, htr, horg]
        rw [if_pos hge]
      constructor
      · simp only [signup, hotp, hmob, hemail, hstep, Option.isSome_none,
          Bool.false_eq_true, if_false]
      · simp only [check_invite, horg]
        rw [if_pos (by omega)]
    · intro hlt
      have hstep : signupInviteStep db data.inviteCode =
          .ok ("employee", some org.id, some org.name) := by
        simp only [signupInviteStep, htr, horg]
        rw [if_neg (by omega)]
      constructor
      · simp only [signup, hotp, hmob, hemail, hstep, Option.isSome_none,
          Bool.false_eq_true, if_false]
        rfl
      · simp only [signup, hotp, hmob, hemail, hstep, Option.isSome_none,
          Bool.false_eq_true, if_false]
        rfl

/-- Witness for C3 (amended): joining the 5-seat organization with one member
succeeds, creates an employee bound to it, and appends the membership row. -/
def otpC3W : OTPRecord :=
  { mobile := "7777777777", countryCode := "+91", otp := "123456",
    expiresAt := 100, verified := true }

/-- Signup request of the joining employee (valid code of `orgW`). -/
def dataC3W : SignupData :=
  { mobile := "7777777777", name := "Chitra", firmName := "CR",
    city := "noida", email := "chitra@example.com", inviteCode := some "ABCD1234" }

/-- Database for the C3 witness: owner, their organization, owner membership
row, and the joining user's verified OTP record. -/
def dbC3W : DB :=
  { emptyDB with
    users := [uOwnerW]
    otpVerifications := [otpC3W]
    organizations := [orgW]
    organizationMembers := [memOwnerW] }

/-- Witness for the amended C3 at a concrete successful join. -/
theorem C3_join_seat_revalidation_witness :
    (signup dbC3W dataC3W 7 "u-c" "m-c").toOption.map
        (fun x => (x.1.role, x.1.organizationId)) = some ("employee", some orgW.id) ∧
    (signup dbC3W dataC3W 7 "u-c" "m-c").toOption.map
        (fun x => x.2.organizationMembers) =
      some (dbC3W.organizationMembers ++
        [{ id := "m-c", userId := "u-c", organizationId := orgW.id,
           role := "employee", joinedAt := 7 }]) := by
  exact ((C3_join_seat_revalidation dbC3W dataC3W 7 "u-c" "m-c" "ABCD1234" otpC3W
    rfl rfl rfl rfl (by decide)).2 orgW rfl).2 (by decide)

/-- C4: when the user's only active-or-pending subscription is fetched by
`GET /subscription` past its `end_date`, it is transitioned to "expired", the
owner loses `is_pro` (status cache "expired"), no active subscription is
reported, and any second read reports none without error; before `end_date`
the subscription is returned with the database unmodified. -/
theorem C4_lazy_expiry (db : DB) (u : User) (now : Int) (s : Subscription)
    (hfil : db.subscriptions.filter
      (fun x => x.userId == u.id &&
        (x.status == "active" || x.status == "pending_payment")) = [s])
    (hids : ∀ x ∈ db.subscriptions, ∀ y ∈ db.subscriptions, x.id = y.id → x = y)
    (huser : db.users.find? (fun x => x.id == u.id) = some u) :
    (now > s.endDate →
        (get_subscription db u now).1 = { subscription := none, expired := true } ∧
        (get_subscription db u now).2.subscriptions.find? (fun x => x.id == s.id) =
          some { s with status := "expired" } ∧
        (get_subscription db u now).2.users.find? (fun x => x.id == u.id) =
          some { u with isPro := false, subscriptionStatus := some "expired" } ∧
        (∀ now2, get_subscription (get_subscription db u now).2 u now2 =
          ({ subscription := none, expired := false }, (get_subscription db u now).2))) ∧
    (¬ now > s.endDate →
        get_subscription db u now = ({ subscription := some s, expired := false }, db)) := by
  have hfind : db.subscriptions.find?
      (fun x => x.userId == u.id &&
        (x.status == "active" || x.status == "pending_payment")) = some s :=
    find?_filter_singleton _ s db.subscriptions hfil
  have hs_mem : s ∈ db.subscriptions := List.mem_of_find?_eq_some hfind
  have hup : ∀ x ∈ db.subscriptions, ∀ y ∈ db.subscriptions,
      (x.id == s.id) = true → (y.id == s.id) = true → x = y := by
    intro x hx y hy hpx hpy
    exact hids x hx y hy ((eq_of_beq hpx).trans (eq_of_beq hpy).symm)
  have hfp : db.subscriptions.find? (fun x => x.id == s.id) = some s :=
    find?_eq_some_of_unique (fun x => x.id == s.id) s (by simp)
      db.subscriptions hs_mem hup
  constructor
  · intro hexp
    refine ⟨?_, ?_, ?_, ?_⟩
    · simp only [get_subscription, hfind]
      rw [if_pos hexp]
    · simp only [get_subscription, hfind]
      rw [if_pos hexp]
      exact find?_updateFirst_self (fun x => x.id == s.id)
        (fun x => { x with status := "expired" }) s db.subscriptions hfp (by simp)
    · simp only [get_subscription, hfind]
      rw [if_pos hexp]
      exact find?_updateFirst_self (fun x => x.id == u.id)
        (fun x => { x with isPro := false, subscriptionStatus := some "expired" })
        u db.users huser (by simp)
    · intro now2
      have hnil : (updateFirst (fun x => x.id == s.id)
          (fun x => { x with status := "expired" }) db.subscriptions).filter
            (fun x => x.userId == u.id &&
              (x.status == "active" || x.status == "pending_payment")) = [] :=
        filter_updateFirst_singleton_nil (fun x => x.id == s.id)
          (fun x => x.userId == u.id &&
            (x.status == "active" || x.status == "pending_payment"))
          (fun x => { x with status := "expired" }) s
          (fun y => by simp) (by simp) db.subscriptions hfil hup
      have hnone : (updateFirst (fun x => x.id == s.id)
          (fun x => { x with status := "expired" }) db.subscriptions).find?
            (fun x => x.userId == u.id &&
              (x.status == "active" || x.status == "pending_payment")) = none := by
        rw [List.find?_eq_none]
        intro x hx
        simpa using List.filter_eq_nil_iff.mp hnil x hx
      simp only [get_subscription, hfind]
      rw [if_pos hexp]
      simp only [get_subscription, hnone]
  · intro hexp
    simp only [get_subscription, hfind]
    rw [if_neg hexp]

/-- An active subscription of the witness owner, ending at t = 100. -/
def subActiveW : Subscription :=
  { id := "sub-a", userId := "u1", planType := "pro_owner_monthly",
    status := "active", employeeSeats := 0, amount := 3599,
    startDate := 0, endDate := 100 }

/-- Database with the witness owner and that single subscription. -/
def dbSubW : DB := { emptyDB with users := [uOwnerW], subscriptions := [subActiveW] }

/-- Witness for C4: reading at t = 200 expires the subscription, demotes the
owner, and a second read at t = 300 reports none without error. -/
theorem C4_lazy_expiry_witness :
    (get_subscription dbSubW uOwnerW 200).1 = { subscription := none, expired := true } ∧
    (get_subscription dbSubW uOwnerW 200).2.subscriptions.find?
        (fun x => x.id == subActiveW.id) =
      some { subActiveW with status := "expired" } ∧
    (get_subscription dbSubW uOwnerW 200).2.users.find?
        (fun x => x.id == uOwnerW.id) =
      some { uOwnerW with isPro := false, subscriptionStatus := some "expired" } ∧
    get_subscription (get_subscription dbSubW uOwnerW 200).2 uOwnerW 300 =
      ({ subscription := none, expired := false },
       (get_subscription dbSubW uOwnerW 200).2) := by
  have hids : ∀ x ∈ dbSubW.subscriptions, ∀ y ∈ dbSubW.subscriptions,
      x.id = y.id → x = y := by
    intro x hx y hy _
    have hx' : x ∈ [subActiveW] := hx
    have hy' : y ∈ [subActiveW] := hy
    rw [List.mem_singleton] at hx' hy'
    rw [hx', hy']
  have h := (C4_lazy_expiry dbSubW uOwnerW 200 subActiveW rfl hids rfl).1 (by decide)
  exact ⟨h.1, h.2.1, h.2.2.1, h.2.2.2 300⟩

/-- Database for the C9 counterexample: owner with a 5-seat organization. -/
def dbC9 : DB :=
  { emptyDB with
    users := [uOwnerW]
    organizations := [orgW]
    organizationMembers := [memOwnerW] }

/-- C9 counterexample: a successful purchase with 0 employee seats by an
owner who has an organization leaves the organization's capacity at 5 instead
of overwriting it to the purchased seat count 0 — the code only overwrites
when `employee_seats > 0`. -/
theorem C9_zero_seat_purchase_keeps_capacity :
    dbC9.organizations = [orgW] ∧ orgW.employeeSeats = 5 ∧
    (create_subscription dbC9 uOwnerW "pro_owner_monthly" 0 0 "s-z").toOption.map
      (fun x => x.2.organizations.map (fun o => o.employeeSeats)) = some [5] := by
  exact ⟨rfl, rfl, by rfl⟩

/-- C9 amended: every successful purchase appends a new "active"
subscription starting now, flips the owner to pro with status cache "active",
and — whenever the owner already has an organization AND the purchased seat
count is positive — overwrites that organization's capacity to the purchased
count (a 0-seat purchase leaves capacity untouched). -/
theorem C9_purchase_effects (db : DB) (u : User) (planType : String)
    (seats now : Int) (sid : String) (sub : Subscription) (db' : DB)
    (huser : db.users.find? (fun x => x.id == u.id) = some u)
    (hcreate : create_subscription db u planType seats now sid = .ok (sub, db')) :
    sub.status = "active" ∧ sub.startDate = now ∧ sub.userId = u.id ∧
    db'.subscriptions = db.subscriptions ++ [sub] ∧
    db'.users.find? (fun x => x.id == u.id) =
      some { u with isPro := true, subscriptionStatus := some "active" } ∧
    (∀ org, db.organizations.find? (fun o => o.ownerId == u.id) = some org →
        0 < seats →
        db'.organizations = updateFirst (fun o => o.id == org.id)
          (fun o => { o with employeeSeats := seats }) db.organizations) := by
  have husers' : ∀ l, l = updateFirst (fun x => x.id == u.id)
      (fun x => { x with isPro := true, subscriptionStatus := some "active" }) db.users →
      l.find? (fun x => x.id == u.id) =
        some { u with isPro := true, subscriptionStatus := some "active" } := by
    intro l hl
    rw [hl]
    exact find?_updateFirst_self (fun x => x.id == u.id)
      (fun x => { x with isPro := true, subscriptionStatus := some "active" })
      u db.users huser (by simp)
  simp only [create_subscription] at hcreate
  by_cases hrole : (u.role != "owner") = true
  · rw [if_pos hrole] at hcreate
    exact absurd hcreate (by simp)
  · rw [if_neg hrole] at hcreate
    by_cases h1 : (planType == "pro_owner_monthly") = true
    case neg =>
      rw [if_neg h1] at hcreate
      by_cases h2 : (planType == "pro_owner_annual") = true
      case neg =>
        rw [if_neg h2] at hcreate
        exact absurd hcreate (by simp)
      case pos =>
        rw [if_pos h2] at hcreate
        rw [Except.ok.injEq, Prod.mk.injEq] at hcreate
        obtain ⟨hsub, hdb⟩ := hcreate
        subst hsub
        subst hdb
        refine ⟨rfl, rfl, rfl, ?_, ?_, ?_⟩
        · cases horg : db.organizations.find? (fun o => o.ownerId == u.id) with
          | none => rfl
          | some org0 =>
              dsimp only
              by_cases hp : seats > 0
              · rw [if_pos hp]
              · rw [if_neg hp]
        · cases horg : db.organizations.find? (fun o => o.ownerId == u.id) with
          | none => exact husers' _ rfl
          | some org0 =>
              dsimp only
              by_cases hp : seats > 0
              · rw [if_pos hp]
                exact husers' _ rfl
              · rw [if_neg hp]
                exact husers' _ rfl
        · cases horg : db.organizations.find? (fun o => o.ownerId == u.id) with
          | none =>
              intro org h _
              exact absurd h (by simp)
          | some org0 =>
              dsimp only
              intro org h hpos
              injection h with h
              subst h
              rw [if_pos hpos]
    case pos =>
      rw [if_pos h1] at hcreate
      rw [Except.ok.injEq, Prod.mk.injEq] at hcreate
      obtain ⟨hsub, hdb⟩ := hcreate
      subst hsub
      subst hdb
      refine ⟨rfl, rfl, rfl, ?_, ?_, ?_⟩
      · cases horg : db.organizations.find? (fun o => o.ownerId == u.id) with
        | none => rfl
        | some org0 =>
            dsimp only
            by_cases hp : seats > 0
            · rw [if_pos hp]
            · rw [if_neg hp]
      · cases horg : db.organizations.find? (fun o => o.ownerId == u.id) with
        | none => exact husers' _ rfl
        | some org0 =>
            dsimp only
            by_cases hp : seats > 0
            · rw [if_pos hp]
              exact husers' _ rfl
            · rw [if_neg hp]
              exact husers' _ rfl
      · cases horg : db.organizations.find? (fun o => o.ownerId == u.id) with
        | none =>
            intro org h _
            exact absurd h (by simp)
        | some org0 =>
            dsimp only
            intro org h hpos
            injection h with h
            subst h
            rw [if_pos hpos]

/-- Result of the concrete C9 purchase (3 seats, owner has an organization). -/
def C9resW : Subscription × DB :=
  match create_subscription dbOrgW uOwnerW "pro_owner_monthly" 3 0 "s-w9" with
  | .ok r => r
  | .error _ => (dummySub, emptyDB)

/-- Witness for the amended C9 at a concrete 3-seat purchase. -/
theorem C9_purchase_effects_witness :
    C9resW.1.status = "active" ∧ C9resW.1.startDate = 0 ∧
    C9resW.1.userId = uOwnerW.id ∧
    C9resW.2.subscriptions = dbOrgW.subscriptions ++ [C9resW.1] ∧
    C9resW.2.users.find? (fun x => x.id == uOwnerW.id) =
      some { uOwnerW with isPro := true, subscriptionStatus := some "active" } ∧
    C9resW.2.organizations = updateFirst (fun o => o.id == orgW.id)
      (fun o => { o with employeeSeats := 3 }) dbOrgW.organizations := by
  have h := C9_purchase_effects dbOrgW uOwnerW "pro_owner_monthly" 3 0 "s-w9"
    C9resW.1 C9resW.2 rfl (by rfl)
  exact ⟨h.1, h.2.1, h.2.2.1, h.2.2.2.1, h.2.2.2.2.1, h.2.2.2.2.2 orgW rfl (by decide)⟩

/-- C10: because the owner is enrolled as a member at creation and the
seat checks compare the TOTAL member count (owner included) against
`employee_seats`, an organization whose invite code resolves and which holds
its owner's membership row admits at most `employee_seats - 1` employees: any
successful invite-code signup leaves the employee-role membership count at
most `employee_seats - 1`; and an organization with the default
`employee_seats = 0` always reports Full on `check_invite`. -/
theorem C10_owner_seat_accounting (db : DB) (code : String) (org : Organization)
    (m : OrgMember)
    (hfind : db.organizations.find? (fun o => o.inviteCode == code) = some org)
    (hm : m ∈ db.organizationMembers) (hmo : m.organizationId = org.id)
    (hrole : m.role = "owner") :
    (org.employeeSeats = 0 →
        check_invite db code = .error ⟨400, "Organization has no available seats"⟩) ∧
    (∀ data now uid mid u db', data.inviteCode = some code → code ≠ "" →
        signup db data now uid mid = .ok (u, db') →
        ((db'.organizationMembers.filter
            (fun x => x.organizationId == org.id && x.role == "employee")).length : Int)
          ≤ org.employeeSeats - 1) := by
  constructor
  · intro hseats0
    simp only [check_invite, hfind]
    rw [if_pos (by rw [hseats0]; omega)]
  · intro data now uid mid u db' hcode hne hsig
    simp only [signup] at hsig
    cases hotp : db.otpVerifications.find?
        (fun r => r.mobile == data.mobile && r.verified) with
    | none =>
        rw [hotp] at hsig
        exact absurd hsig (by simp)
    | some r0 =>
        rw [hotp] at hsig
        by_cases hmob : (db.users.find? (fun x => x.mobile == data.mobile)).isSome = true
        · rw [if_pos hmob] at hsig
          exact absurd hsig (by simp)
        · rw [if_neg hmob] at hsig
          by_cases hem : (db.users.find? (fun x => x.email == data.email)).isSome = true
          · rw [if_pos hem] at hsig
            exact absurd hsig (by simp)
          · rw [if_neg hem] at hsig
            have htr : truthyStr data.inviteCode = some code := by
              rw [hcode]
              simp [truthyStr, hne]
            by_cases hseat : ((db.organizationMembers.filter
                (fun x => x.organizationId == org.id)).length : Int) ≥ org.employeeSeats
            · have hstep : signupInviteStep db data.inviteCode =
                  .error ⟨400, "Organization has no available seats"⟩ := by
                simp only [signupInviteStep, htr, hfind]
                rw [if_pos hseat]
              rw [hstep] at hsig
              exact absurd hsig (by simp)
            · have hstep : signupInviteStep db data.inviteCode =
                  .ok ("employee", some org.id, some org.name) := by
                simp only [signupInviteStep, htr, hfind]
                rw [if_neg hseat]
              rw [hstep] at hsig
              dsimp only at hsig
              rw [Except.ok.injEq, Prod.mk.injEq] at hsig
              obtain ⟨-, hdb⟩ := hsig
              subst hdb
              have hstrict : (db.organizationMembers.filter
                  (fun x => x.organizationId == org.id && x.role == "employee")).length
                  < (db.organizationMembers.filter
                    (fun x => x.organizationId == org.id)).length :=
                length_filter_lt_of_mem (fun x => x.organizationId == org.id)
                  (fun x => x.organizationId == org.id && x.role == "employee")
                  (fun x hx => by
                    rw [Bool.and_eq_true] at hx
                    exact hx.1)
                  m (by simp [hmo]) (by simp [hmo, hrole]) db.organizationMembers hm
              have happ : ((db.organizationMembers ++
                  [({ id := mid, userId := uid, organizationId := org.id,
                      role := "employee", joinedAt := now } : OrgMember)]).filter
                    (fun x => x.organizationId == org.id && x.role == "employee")).length
                  = (db.organizationMembers.filter
                    (fun x => x.organizationId == org.id && x.role == "employee")).length
                    + 1 := by
                rw [List.filter_append]
                simp
              dsimp only
              rw [happ]
              omega

/-- An organization created with the default `employee_seats = 0`. -/
def orgZeroW : Organization :=
  { id := "org0", name := "Zero Org", ownerId := "u1",
    inviteCode := "ZZZZ0000", employeeSeats := 0 }

/-- Its owner membership row. -/
def memZeroW : OrgMember :=
  { id := "mz", userId := "u1", organizationId := "org0", role := "owner", joinedAt := 0 }

/-- Database with the zero-seat organization and its enrolled owner. -/
def dbC10 : DB :=
  { emptyDB with
    users := [uOwnerW]
    organizations := [orgZeroW]
    organizationMembers := [memZeroW] }

/-- Result of the concrete successful join of `orgW` (5 seats, 1 member). -/
def C10resW : User × DB :=
  match signup dbC3W dataC3W 7 "u-c" "m-c" with
  | .ok r => r
  | .error _ => (uOwnerW, emptyDB)

/-- Witness for C10: the zero-seat organization reports Full, and after a
concrete successful join of the 5-seat organization the employee count stays
at most 4. -/
theorem C10_owner_seat_accounting_witness :
    check_invite dbC10 "ZZZZ0000" =
      .error ⟨400, "Organization has no available seats"⟩ ∧
    ((C10resW.2.organizationMembers.filter
        (fun x => x.organizationId == orgW.id && x.role == "employee")).length : Int)
      ≤ orgW.employeeSeats - 1 := by
  constructor
  · exact (C10_owner_seat_accounting dbC10 "ZZZZ0000" orgZeroW memZeroW
      rfl (by decide) rfl rfl).1 rfl
  · exact (C10_owner_seat_accounting dbC3W "ABCD1234" orgW memOwnerW
      rfl (by decide) rfl rfl).2 dataC3W 7 "u-c" "m-c" C10resW.1 C10resW.2
      rfl (by decide) (by rfl)

/-- Base state for the C2 counterexample: a single owner, no subscriptions. -/
def dbC2base : DB := { emptyDB with users := [uOwnerW] }

/-- State after the first purchase. -/
def dbC2one : DB :=
  match create_subscription dbC2base uOwnerW "pro_owner_monthly" 0 0 "s-one" with
  | .ok (_, d) => d
  | .error _ => dbC2base

/-- State after the second purchase by the same owner. -/
def dbC2two : DB :=
  match create_subscription dbC2one uOwnerW "pro_owner_monthly" 0 10 "s-two" with
  | .ok (_, d) => d
  | .error _ => dbC2one

/-- C2 counterexample: two successive purchases by the same user — no
concurrency involved — leave TWO subscriptions with status "active" for that
user, because `create_subscription` inserts unconditionally (no
lookup-then-upsert). -/
theorem C2_two_purchases_two_active :
    countActiveSubs dbC2base uOwnerW.id = 0 ∧
    countActiveSubs dbC2one uOwnerW.id = 1 ∧
    countActiveSubs dbC2two uOwnerW.id = 2 := ⟨rfl, rfl, rfl⟩

/-- Helper: a successful purchase appends exactly one new subscription row,
which is "active" and belongs to the purchasing user. -/
theorem createSub_subscriptions_eq (db : DB) (u : User) (planType : String)
    (seats now : Int) (sid : String) (sub : Subscription) (db' : DB)
    (hcreate : create_subscription db u planType seats now sid = .ok (sub, db')) :
    db'.subscriptions = db.subscriptions ++ [sub] ∧
    sub.userId = u.id ∧ sub.status = "active" := by
  simp only [create_subscription] at hcreate
  by_cases hrole : (u.role != "owner") = true
  · rw [if_pos hrole] at hcreate
    exact absurd hcreate (by simp)
  · rw [if_neg hrole] at hcreate
    by_cases h1 : (planType == "pro_owner_monthly") = true
    case pos =>
      rw [if_pos h1] at hcreate
      rw [Except.ok.injEq, Prod.mk.injEq] at hcreate
      obtain ⟨hsub, hdb⟩ := hcreate
      subst hsub
      subst hdb
      refine ⟨?_, rfl, rfl⟩
      cases horg : db.organizations.find? (fun o => o.ownerId == u.id) with
      | none => rfl
      | some org0 =>
          dsimp only
          by_cases hp : seats > 0
          · rw [if_pos hp]
          · rw [if_neg hp]
    case neg =>
      rw [if_neg h1] at hcreate
      by_cases h2 : (planType == "pro_owner_annual") = true
      case neg =>
        rw [if_neg h2] at hcreate
        exact absurd hcreate (by simp)
      case pos =>
        rw [if_pos h2] at hcreate
        rw [Except.ok.injEq, Prod.mk.injEq] at hcreate
        obtain ⟨hsub, hdb⟩ := hcreate
        subst hsub
        subst hdb
        refine ⟨?_, rfl, rfl⟩
        cases horg : db.organizations.find? (fun o => o.ownerId == u.id) with
        | none => rfl
        | some org0 =>
            dsimp only
            by_cases hp : seats > 0
            · rw [if_pos hp]
            · rw [if_neg hp]

/-- C2 amended: admin subscription grants preserve at-most-one-active
(lookup-then-update, assuming distinct subscription ids), but a purchase
always inserts a fresh "active" row — each successful purchase increments the
user's active-subscription count by one, so a second purchase while one is
active yields two simultaneously active subscriptions. -/
theorem C2_active_invariant (db : DB) (userId : String) (isPro : Bool)
    (dm es : Option Int) (now : Int) (nid : String)
    (hids : ∀ x ∈ db.subscriptions, ∀ y ∈ db.subscriptions, x.id = y.id → x = y) :
    (∀ db', admin_update_subscription db userId isPro dm es now nid = .ok db' →
        countActiveSubs db userId ≤ 1 → countActiveSubs db' userId ≤ 1) ∧
    (∀ u planType seats sid sub db', u.id = userId →
        create_subscription db u planType seats now sid = .ok (sub, db') →
        countActiveSubs db' userId = countActiveSubs db userId + 1) := by
  constructor
  · intro db' hadmin hle
    simp only [admin_update_subscription] at hadmin
    cases huser : db.users.find? (fun x => x.id == userId) with
    | none =>
        rw [huser] at hadmin
        exact absurd hadmin (by simp)
    | some u0 =>
        rw [huser] at hadmin
        dsimp only at hadmin
        rw [Except.ok.injEq] at hadmin
        subst hadmin
        simp only [countActiveSubs]
        cases isPro with
        | false =>
            simp only [Bool.false_eq_true, if_false]
            exact hle
        | true =>
            rw [if_pos (rfl : true = true)]
            cases hfind : db.subscriptions.find?
                (fun s => s.userId == userId && s.status == "active") with
            | none =>
                dsimp only
                have hnil : db.subscriptions.filter
                    (fun s => s.userId == userId && s.status == "active") = [] :=
                  List.filter_eq_nil_iff.mpr (List.find?_eq_none.mp hfind)
                have happ : ∀ z : Subscription,
                    (z.userId == userId && z.status == "active") = true →
                    ((db.subscriptions ++ [z]).filter
                      (fun s => s.userId == userId && s.status == "active")).length = 1 := by
                  intro z hz
                  rw [List.filter_append, hnil]
                  simp [hz]
                cases hes : es with
                | none =>
                    dsimp only
                    rw [happ _ (by simp)]
                | some es0 =>
                    dsimp only
                    cases horg : db.organizations.find? (fun o => o.ownerId == userId) with
                    | none =>
                        dsimp only
                        rw [happ _ (by simp)]
                    | some org0 =>
                        dsimp only
                        rw [happ _ (by simp)]
            | some s0 =>
                dsimp only
                have hq_s0 := @List.find?_some Subscription
                  (fun s => s.userId == userId && s.status == "active")
                  s0 db.subscriptions hfind
                rw [Bool.and_eq_true] at hq_s0
                have hpres : ∀ (f : Subscription → Subscription),
                    (∀ x, (f x).userId = x.userId) → (∀ x, (f x).status = "active") →
                    ((updateFirst (fun x => x.id == s0.id) f db.subscriptions).filter
                      (fun s => s.userId == userId && s.status == "active")).length
                    = (db.subscriptions.filter
                      (fun s => s.userId == userId && s.status == "active")).length := by
                  intro f hfu hfs
                  apply length_filter_updateFirst_eq
                  intro x hx
                  have hx_mem : x ∈ db.subscriptions := List.mem_of_find?_eq_some hx
                  have hx_p := @List.find?_some Subscription
                    (fun x => x.id == s0.id) x db.subscriptions hx
                  have hs0_mem : s0 ∈ db.subscriptions := List.mem_of_find?_eq_some hfind
                  have hx_eq : x = s0 := hids x hx_mem s0 hs0_mem (eq_of_beq hx_p)
                  subst hx_eq
                  simp [hfu, hfs, hq_s0.1, hq_s0.2]
                cases hes : es with
                | none =>
                    dsimp only
                    exact le_of_eq_of_le (hpres _ (fun x => rfl) (fun x => rfl)) hle
                | some es0 =>
                    dsimp only
                    cases horg : db.organizations.find? (fun o => o.ownerId == userId) with
                    | none =>
                        dsimp only
                        exact le_of_eq_of_le (hpres _ (fun x => rfl) (fun x => rfl)) hle
                    | some org0 =>
                        dsimp only
                        exact le_of_eq_of_le (hpres _ (fun x => rfl) (fun x => rfl)) hle
  · intro u planType seats sid sub db' hu hcreate
    obtain ⟨hsubs, huid, hstat⟩ := createSub_subscriptions_eq db u planType seats now sid
      sub db' hcreate
    simp only [countActiveSubs, hsubs, List.filter_append]
    have hq : (sub.userId == userId && sub.status == "active") = true := by
      rw [Bool.and_eq_true]
      constructor
      · rw [huid, hu]
        simp
      · simp [hstat]
    simp [hq]

/-- Database with one active subscription, for the C2 witness. -/
def dbC2adm : DB := { emptyDB with users := [uOwnerW], subscriptions := [subActiveW] }

/-- Result of a concrete admin grant extending the active subscription. -/
def dbC2admRes : DB :=
  match admin_update_subscription dbC2adm "u1" true (some 2) (some 5) 0 "s-adm" with
  | .ok d => d
  | .error _ => dbC2adm

/-- Result of a concrete purchase while one subscription is already active. -/
def C2purRes : Subscription × DB :=
  match create_subscription dbC2adm uOwnerW "pro_owner_monthly" 0 0 "s-p2" with
  | .ok r => r
  | .error _ => (dummySub, emptyDB)

/-- Witness for the amended C2: the admin grant keeps the active count at one,
while the concrete purchase raises it from one to two. -/
theorem C2_active_invariant_witness :
    countActiveSubs dbC2adm "u1" ≤ 1 ∧
    countActiveSubs dbC2admRes "u1" ≤ 1 ∧
    countActiveSubs C2purRes.2 "u1" = countActiveSubs dbC2adm "u1" + 1 := by
  have hids : ∀ x ∈ dbC2adm.subscriptions, ∀ y ∈ dbC2adm.subscriptions,
      x.id = y.id → x = y := by
    intro x hx y hy _
    have hx' : x ∈ [subActiveW] := hx
    have hy' : y ∈ [subActiveW] := hy
    rw [List.mem_singleton] at hx' hy'
    rw [hx', hy']
  have h := C2_active_invariant dbC2adm "u1" true (some 2) (some 5) 0 "s-adm" hids
  refine ⟨by decide, h.1 dbC2admRes (by rfl) (by decide), ?_⟩
  exact h.2 uOwnerW "pro_owner_monthly" 0 "s-p2" C2purRes.1 C2purRes.2 rfl (by rfl)
